import Mathlib

/-!
Verification of the rating aggregation subsystem of ExamPrepShare.

The definitions below are a shallow embedding of the backend code:
`backend/models/Rating.js` (the Rating schema, its lifecycle hooks and the
`updateResourceStars` static) and `backend/routes/ratings.js` (the POST /,
DELETE /:ratingId and GET /stats/:resourceId handlers).  Mongo ObjectIds are
modelled as `Nat`, JavaScript numbers as `ℚ` (star values are schema-constrained
integers 1..5, stored as `Nat`), and the document store as in-memory lists.
-/

namespace ExamPrepShare

/-- A document of the `Rating` collection (`backend/models/Rating.js`):
`user`, `resource` (ObjectId refs), `stars` (1..5), optional `review`
(here the empty string stands for an absent review, matching `review || ''`).
`id` is the Mongo `_id`. -/
structure Rating where
  id : Nat
  user : Nat
  resource : Nat
  stars : Nat
  review : String
deriving DecidableEq, Repr

/-- The slice of a `Resource` document the rating subsystem touches
(`backend/models/Resource.js`): the denormalized `stars` and `totalRatings`
fields plus `uploadedBy` and `isActive`, which the POST handler consults. -/
structure Resource where
  id : Nat
  uploadedBy : Nat
  isActive : Bool
  stars : ℚ
  totalRatings : Nat
deriving DecidableEq, Repr

/-- The document store: the `ratings` and `resources` collections, plus a
counter supplying fresh `_id`s for inserted ratings. -/
structure DB where
  ratings : List Rating
  resources : List Resource
  nextRatingId : Nat
deriving DecidableEq, Repr

/-- JavaScript `Math.round`: rounds to the nearest integer, halves toward
positive infinity. -/
def jsRound (q : ℚ) : ℤ := ⌊q + 1 / 2⌋

/-- Modelled from the spec: rounding to the nearest integer with ties
resolved away from zero ("round-half-away-from-zero", spec §4.3 and §9).
This is the spec's words, to be compared against `jsRound` from the source. -/
def roundHalfAwayFromZero (q : ℚ) : ℤ :=
  if 0 ≤ q then ⌊q + 1 / 2⌋ else -⌊-q + 1 / 2⌋

/-- The `$match: {resource: resourceId}` stage shared by both aggregation
pipelines: the live ratings of one resource. -/
def ratingsFor (db : DB) (resourceId : Nat) : List Rating :=
  db.ratings.filter (fun r => r.resource == resourceId)

/-- The `$avg: '$stars'` accumulator over a list of matched ratings. -/
def avgStars (l : List Rating) : ℚ :=
  (l.map (fun r => (r.stars : ℚ))).sum / l.length

/-- `Resource.findByIdAndUpdate(resourceId, {stars: s, totalRatings: c})`:
the store's atomic single-document update, a no-op when no resource has
that id. -/
def writeAggregate (db : DB) (resourceId : Nat) (s : ℚ) (c : Nat) : DB :=
  { db with resources := db.resources.map (fun rsrc =>
      if rsrc.id == resourceId then
        { rsrc with stars := s, totalRatings := c }
      else rsrc) }

/-- `ratingSchema.statics.updateResourceStars` (`Rating.js` lines 50-73):
aggregates the live ratings of `resourceId`; if any exist, writes
`{stars: Math.round(avg*10)/10, totalRatings: count}` onto the resource via
`findByIdAndUpdate`, otherwise writes `{stars: 0, totalRatings: 0}`. -/
def updateResourceStars (db : DB) (resourceId : Nat) : DB :=
  let matched := ratingsFor db resourceId
  if matched.length = 0 then
    writeAggregate db resourceId 0 0
  else
    writeAggregate db resourceId
      ((jsRound (avgStars matched * 10) : ℚ) / 10) matched.length

/-- Outcome of `POST /api/ratings` (`routes/ratings.js` lines 12-66). -/
inductive SubmitResult where
  | validationError
  | notFound
  | ownResource
  | success (message : String) (rating : Rating)
  | serverError
deriving DecidableEq, Repr

/-- `Rating.findOne({user: req.userId, resource: resourceId})`. -/
def findOneRating (db : DB) (userId resourceId : Nat) : Option Rating :=
  db.ratings.find? (fun r => r.user == userId && r.resource == resourceId)

/-- `Resource.findById(resourceId)`. -/
def findResource (db : DB) (resourceId : Nat) : Option Resource :=
  db.resources.find? (fun r => r.id == resourceId)

/-- The express-validator checks of the POST route: `stars` an integer in
[1,5] and `review`, when present, at most 500 characters. -/
def validInput (stars : Nat) (review : Option String) : Bool :=
  (1 ≤ stars && stars ≤ 5) &&
    (match review with
     | some rv => rv.length ≤ 500
     | none => true)

/-- `POST /api/ratings` (`routes/ratings.js` lines 12-66): validate, check
the resource exists and is active, reject self-rating, then find-or-create
the rating.  Either branch ends in `rating.save()`, whose `post('save')`
hook (`Rating.js` lines 33-35) runs `updateResourceStars(this.resource)`.
The response message is the ternary of line 59, evaluated after
`rating.stars` has been assigned `stars`. -/
def submit (db : DB) (userId resourceId stars : Nat) (review : Option String) :
    SubmitResult × DB :=
  if ¬ validInput stars review then (.validationError, db)
  else
    match findResource db resourceId with
    | none => (.notFound, db)
    | some resource =>
      if ¬ resource.isActive then (.notFound, db)
      else if resource.uploadedBy == userId then (.ownResource, db)
      else
        match findOneRating db userId resourceId with
        | some rating =>
          let updated := { rating with
            stars := stars,
            review := match review with
                      | some rv => rv
                      | none => rating.review }
          let newRatings :=
            db.ratings.map (fun r => if r.id == rating.id then updated else r)
          let db1 := { db with ratings := newRatings }
          let db2 := updateResourceStars db1 resourceId
          let message := if updated.stars ≠ stars
            then "Rating updated successfully" else "Rating added successfully"
          (.success message updated, db2)
        | none =>
          let newRating : Rating :=
            { id := db.nextRatingId, user := userId, resource := resourceId,
              stars := stars, review := review.getD "" }
          let db1 := { db with ratings := newRating :: db.ratings,
                               nextRatingId := db.nextRatingId + 1 }
          let db2 := updateResourceStars db1 resourceId
          let message := if newRating.stars ≠ stars
            then "Rating updated successfully" else "Rating added successfully"
          (.success message newRating, db2)

/-- Outcome of `DELETE /api/ratings/:ratingId`. -/
inductive DeleteResult where
  | notFound
  | forbidden
  | success
  | serverError
deriving DecidableEq, Repr

/-- `DELETE /api/ratings/:ratingId` (`routes/ratings.js` lines 174-194):
look the rating up, check ownership, then `Rating.findByIdAndDelete`.
That query's conditions are `{_id: ratingId}` only, so the
`post('findOneAndDelete')` hook (`Rating.js` lines 43-47) finds
`this._conditions.resource` undefined and does NOT call
`updateResourceStars`: the resource's denormalized fields are left as they
were. -/
def deleteRating (db : DB) (ratingId requesterId : Nat) : DeleteResult × DB :=
  match db.ratings.find? (fun r => r.id == ratingId) with
  | none => (.notFound, db)
  | some rating =>
    if rating.user ≠ requesterId then (.forbidden, db)
    else
      let remaining := db.ratings.filter (fun r => ¬ r.id == ratingId)
      (.success, { db with ratings := remaining })

/-- The statistics body of `GET /api/ratings/stats/:resourceId`:
`averageStars`, `totalRatings`, and the star distribution with one bucket
per star value 1..5 (all buckets always present). -/
structure StatsBody where
  averageStars : ℚ
  totalRatings : Nat
  dist1 : Nat
  dist2 : Nat
  dist3 : Nat
  dist4 : Nat
  dist5 : Nat
deriving DecidableEq, Repr

/-- Responses of `GET /api/ratings/stats/:resourceId`.  `notFound` is the
404 shape used by the other routes; this route can also answer 500 from its
catch block. -/
inductive StatsResponse where
  | ok (body : StatsBody)
  | notFound
  | serverError
deriving DecidableEq, Repr

/-- `GET /api/ratings/stats/:resourceId` (`routes/ratings.js` lines
199-240): aggregates the live ratings of the resource.  If the pipeline is
empty it answers the zeroed body; otherwise it answers
`Math.round(averageStars*10)/10`, the count, and the per-star buckets
accumulated from the pushed star values.  No resource-existence check is
performed. -/
def getStats (db : DB) (resourceId : Nat) : StatsResponse :=
  let matched := ratingsFor db resourceId
  if matched.length = 0 then
    .ok { averageStars := 0, totalRatings := 0,
          dist1 := 0, dist2 := 0, dist3 := 0, dist4 := 0, dist5 := 0 }
  else
    let stars := matched.map (fun r => r.stars)
    .ok { averageStars := (jsRound (avgStars matched * 10) : ℚ) / 10,
          totalRatings := matched.length,
          dist1 := stars.count 1, dist2 := stars.count 2,
          dist3 := stars.count 3, dist4 := stars.count 4,
          dist5 := stars.count 5 }

/-- Errors the document store can raise on an insert.  The unique compound
index `{user: 1, resource: 1}` (`Rating.js` line 30) makes an insert fail
with a duplicate-key error when a rating for the same pair already exists. -/
inductive DbError where
  | duplicateKey
deriving DecidableEq, Repr

/-- Persisting a freshly constructed rating document (`rating.save()` on a
new document) against the unique `{user, resource}` index: the insert is
rejected with `duplicateKey` if a rating for the pair is already stored. -/
def saveNewRating (db : DB) (r : Rating) : Except DbError DB :=
  if db.ratings.any (fun x => x.user == r.user && x.resource == r.resource) then
    .error .duplicateKey
  else
    .ok { db with ratings := r :: db.ratings, nextRatingId := db.nextRatingId + 1 }

/-- The POST handler under the check-then-act race: `concurrent` is a rating
document inserted by another request between this handler's
`Rating.findOne` (line 37) and its `rating.save()` (line 52).  The handler
code is unchanged; when the insert hits the unique index the thrown
duplicate-key error lands in the route's catch block (lines 62-65), which
answers a generic 500 — there is no retry-as-update path. -/
def submitWithConcurrentInsert (db : DB) (userId resourceId stars : Nat)
    (review : Option String) (concurrent : Rating) : SubmitResult × DB :=
  if ¬ validInput stars review then (.validationError, db)
  else
    match findResource db resourceId with
    | none => (.notFound, db)
    | some resource =>
      if ¬ resource.isActive then (.notFound, db)
      else if resource.uploadedBy == userId then (.ownResource, db)
      else
        match findOneRating db userId resourceId with
        | some rating =>
          let updated := { rating with
            stars := stars,
            review := match review with
                      | some rv => rv
                      | none => rating.review }
          let newRatings :=
            db.ratings.map (fun r => if r.id == rating.id then updated else r)
          let db1 := { db with ratings := newRatings }
          let db2 := updateResourceStars db1 resourceId
          let message := if updated.stars ≠ stars
            then "Rating updated successfully" else "Rating added successfully"
          (.success message updated, db2)
        | none =>
          let dbRace := { db with ratings := concurrent :: db.ratings }
          let newRating : Rating :=
            { id := dbRace.nextRatingId, user := userId, resource := resourceId,
              stars := stars, review := review.getD "" }
          match saveNewRating dbRace newRating with
          | .ok db1 =>
            let db2 := updateResourceStars db1 resourceId
            let message := if newRating.stars ≠ stars
              then "Rating updated successfully" else "Rating added successfully"
            (.success message newRating, db2)
          | .error _ => (.serverError, dbRace)

/-- Well-formedness of the store: Mongo `_id`s of rating documents are
pairwise distinct. -/
def WFIds (db : DB) : Prop := (db.ratings.map (fun r => r.id)).Nodup

/-- The one-rating-per-user-per-resource invariant enforced by the unique
compound index (`Rating.js` line 30): no two stored ratings share the
`(user, resource)` pair. -/
def UniquePairs (db : DB) : Prop :=
  db.ratings.Pairwise (fun a b => a.user ≠ b.user ∨ a.resource ≠ b.resource)

/-! Concrete stores used to evaluate the handlers at specific inputs. -/

/-- A store with a single rating: user 2 rated resource 10 with 3 stars;
the resource (uploaded by user 1, active) carries the matching aggregate. -/
def sampleDB : DB :=
  { ratings := [{ id := 1, user := 2, resource := 10, stars := 3, review := "old" }],
    resources := [{ id := 10, uploadedBy := 1, isActive := true,
                    stars := 3, totalRatings := 1 }],
    nextRatingId := 2 }

/-- A store where resource 10 has exactly one rating, 5 stars, and the
denormalized aggregate matches it. -/
def deleteDB : DB :=
  { ratings := [{ id := 1, user := 2, resource := 10, stars := 5, review := "" }],
    resources := [{ id := 10, uploadedBy := 1, isActive := true,
                    stars := 5, totalRatings := 1 }],
    nextRatingId := 2 }

/-- A completely empty store: no ratings and, in particular, no resource. -/
def emptyDB : DB := { ratings := [], resources := [], nextRatingId := 0 }

/-- A store with an active, unrated resource 10 uploaded by user 1. -/
def raceDB : DB :=
  { ratings := [],
    resources := [{ id := 10, uploadedBy := 1, isActive := true,
                    stars := 0, totalRatings := 0 }],
    nextRatingId := 1 }

/-- A store where resource 10 has ratings with star values 5, 5 and 4. -/
def statsDB : DB :=
  { ratings := [{ id := 1, user := 2, resource := 10, stars := 5, review := "" },
                { id := 2, user := 3, resource := 10, stars := 5, review := "" },
                { id := 3, user := 4, resource := 10, stars := 4, review := "" }],
    resources := [{ id := 10, uploadedBy := 1, isActive := true,
                    stars := 47 / 10, totalRatings := 3 }],
    nextRatingId := 4 }

/-!  Helper lemmas shared by the claim theorems. -/

/-- Unfolding of `updateResourceStars` through the store primitive. -/
theorem updateResourceStars_def (db : DB) (resourceId : Nat) :
    updateResourceStars db resourceId =
      if (ratingsFor db resourceId).length = 0 then
        writeAggregate db resourceId 0 0
      else
        writeAggregate db resourceId
          ((jsRound (avgStars (ratingsFor db resourceId) * 10) : ℚ) / 10)
          (ratingsFor db resourceId).length := rfl

/-- Recomputation never touches the ratings collection. -/
theorem updateResourceStars_ratings (db : DB) (resourceId : Nat) :
    (updateResourceStars db resourceId).ratings = db.ratings := by
  rw [updateResourceStars_def]
  split <;> rfl

/-- Two consecutive aggregate writes to the same resource: the last one
wins. -/
theorem writeAggregate_overwrite (db : DB) (resourceId : Nat)
    (s s' : ℚ) (c c' : Nat) :
    writeAggregate (writeAggregate db resourceId s c) resourceId s' c' =
      writeAggregate db resourceId s' c' := by
  simp only [writeAggregate, List.map_map]
  congr 1
  apply List.map_congr_left
  intro x _
  by_cases h : x.id = resourceId
  · simp [Function.comp_def, h]
  · simp [Function.comp_def, h]

/-- A list of ratings each worth at least one star sums to at least its
length. -/
theorem length_le_sum_of_stars_ge_one (l : List Rating)
    (hs : ∀ r ∈ l, 1 ≤ r.stars) :
    (l.length : ℚ) ≤ (l.map (fun r => (r.stars : ℚ))).sum := by
  induction l with
  | nil => simp
  | cons a t ih =>
    have ha : (1 : ℚ) ≤ (a.stars : ℚ) := by
      exact_mod_cast hs a (List.mem_cons_self a t)
    have ht := ih (fun r hr => hs r (List.mem_cons_of_mem a hr))
    simp only [List.map_cons, List.sum_cons, List.length_cons]
    push_cast
    linarith

/-- Mapping a function that does not change whether elements satisfy `p`
preserves the filtered length. -/
theorem length_filter_map_of_pred_eq {α : Type} (l : List α) (g : α → α)
    (p : α → Bool) (h : ∀ x ∈ l, p (g x) = p x) :
    ((l.map g).filter p).length = (l.filter p).length := by
  rw [← List.countP_eq_length_filter, ← List.countP_eq_length_filter,
      List.countP_map]
  induction l with
  | nil => rfl
  | cons a t ih =>
    have ha := h a (List.mem_cons_self a t)
    have ht := ih (fun x hx => h x (List.mem_cons_of_mem a hx))
    simp only [List.countP_cons, Function.comp_apply, ha, ht]

/-- Overwriting the rating found for a `(user, resource)` pair — mapping
`fun x => if x.id == r0.id then u else x` where `u` keeps `r0`'s user and
resource — changes no rating's user or resource, provided `_id`s are
unique in the store. -/
theorem overwrite_preserves_key_fields (l : List Rating) (r0 u : Rating)
    (hu : u.user = r0.user) (hr : u.resource = r0.resource)
    (hids : (l.map (fun r => r.id)).Nodup) (hmem : r0 ∈ l) :
    ∀ x ∈ l, ((if x.id == r0.id then u else x).user = x.user ∧
              (if x.id == r0.id then u else x).resource = x.resource) := by
  intro x hx
  by_cases hid : x.id = r0.id
  · have hx0 : x = r0 := List.inj_on_of_nodup_map hids hx hmem hid
    subst hx0
    simp [hu, hr]
  · simp [hid]

/-- A map that preserves every element's user and resource preserves the
pairwise-distinct-pairs property. -/
theorem pairwise_pairs_map (l : List Rating) (g : Rating → Rating)
    (hg : ∀ x ∈ l, (g x).user = x.user ∧ (g x).resource = x.resource)
    (h : l.Pairwise (fun a b => a.user ≠ b.user ∨ a.resource ≠ b.resource)) :
    (l.map g).Pairwise (fun a b => a.user ≠ b.user ∨ a.resource ≠ b.resource) := by
  rw [List.pairwise_map]
  refine h.imp_of_mem ?_
  intro a b ha hb hab
  rcases hab with hab | hab
  · exact Or.inl (by rw [(hg a ha).1, (hg b hb).1]; exact hab)
  · exact Or.inr (by rw [(hg a ha).2, (hg b hb).2]; exact hab)

/-!  Claim theorems. -/

/-- C1: the claim says that after every completed rating mutation — Submit
create, Submit update, and Delete — the resource's `totalRatings` equals the
number of live ratings and `stars` their rounded mean (both `0` when none
exist).  The code violates this on the Delete path: `findByIdAndDelete`
queries by `_id` only, so the `post('findOneAndDelete')` hook never calls
`updateResourceStars`.  Evaluating the code at the failing input: deleting
the only rating of resource 10 succeeds and leaves zero live ratings, yet
the resource still carries `stars = 5`, `totalRatings = 1`. -/
theorem C1_delete_leaves_stale_aggregate :
    (deleteRating deleteDB 1 2).fst = DeleteResult.success ∧
    ratingsFor (deleteRating deleteDB 1 2).snd 10 = [] ∧
    (deleteRating deleteDB 1 2).snd.resources =
      [{ id := 10, uploadedBy := 1, isActive := true,
         stars := 5, totalRatings := 1 }] :=
  ⟨rfl, rfl, rfl⟩

/-- C2: the claim says Delete recomputes the aggregate for the deleted
rating's resource, so deleting the only rating resets `stars` and
`totalRatings` to `0`.  Evaluating the code at the failing input: the
delete succeeds and removes the rating, but resource 10 still reads
`stars = 5`, `totalRatings = 1` — no recomputation happened. -/
theorem C2_delete_only_rating_keeps_old_aggregate :
    (deleteRating deleteDB 1 2).fst = DeleteResult.success ∧
    ratingsFor (deleteRating deleteDB 1 2).snd 10 = [] ∧
    findResource (deleteRating deleteDB 1 2).snd 10 =
      some { id := 10, uploadedBy := 1, isActive := true,
             stars := 5, totalRatings := 1 } :=
  ⟨rfl, rfl, rfl⟩

/-- C4: the claim says a successful Submit reports whether it was a create
or an update.  Evaluating the code at the failing input: user 2 already
has a rating (3 stars) for resource 10, resubmits with 5 stars — an update
— yet the response message is "Rating added successfully", because line 59
compares `rating.stars` with `stars` after `rating.stars = stars` was
assigned, so the comparison is always false. -/
theorem C4_update_reports_added :
    findOneRating sampleDB 2 10 =
      some { id := 1, user := 2, resource := 10, stars := 3, review := "old" } ∧
    (submit sampleDB 2 10 5 none).fst =
      SubmitResult.success "Rating added successfully"
        { id := 1, user := 2, resource := 10, stars := 5, review := "old" } :=
  ⟨rfl, rfl⟩

/-- C5 counterexample: the claim says GetStats fails with NotFound when the
resource does not exist.  In the store `emptyDB` no resource 99 exists, yet
`getStats` answers the zeroed statistics body, not NotFound: the handler
never checks resource existence. -/
theorem C5_counterexample_stats_without_resource :
    findResource emptyDB 99 = none ∧
    getStats emptyDB 99 ≠ StatsResponse.notFound ∧
    getStats emptyDB 99 = StatsResponse.ok
      { averageStars := 0, totalRatings := 0,
        dist1 := 0, dist2 := 0, dist3 := 0, dist4 := 0, dist5 := 0 } := by
  refine ⟨rfl, fun h => ?_, rfl⟩
  rw [show getStats emptyDB 99 = StatsResponse.ok
    { averageStars := 0, totalRatings := 0,
      dist1 := 0, dist2 := 0, dist3 := 0, dist4 := 0, dist5 := 0 } from rfl] at h
  exact StatsResponse.noConfusion h

/-- C5 amended: GetStats performs no resource-existence check and never
answers NotFound; whenever the resource has no live ratings — in
particular when no resource with that id exists at all — it answers the
zeroed statistics body. -/
theorem C5_amended_zeroed_stats_when_no_ratings (db : DB) (resourceId : Nat)
    (h : ratingsFor db resourceId = []) :
    getStats db resourceId = StatsResponse.ok
      { averageStars := 0, totalRatings := 0,
        dist1 := 0, dist2 := 0, dist3 := 0, dist4 := 0, dist5 := 0 } := by
  simp [getStats, h]

/-- Witness for the amended C5 at the concrete empty store. -/
theorem C5_amended_witness :
    getStats emptyDB 99 = StatsResponse.ok
      { averageStars := 0, totalRatings := 0,
        dist1 := 0, dist2 := 0, dist3 := 0, dist4 := 0, dist5 := 0 } :=
  C5_amended_zeroed_stats_when_no_ratings emptyDB 99 rfl

/-- C7: for resource 10 with live star values [5,5,4], GetStats answers
averageStars 4.7, totalRatings 3, and the distribution 1↦0, 2↦0, 3↦0,
4↦1, 5↦2, every bucket present. -/
theorem C7_stats_of_5_5_4 :
    getStats statsDB 10 = StatsResponse.ok
      { averageStars := 47 / 10, totalRatings := 3,
        dist1 := 0, dist2 := 0, dist3 := 0, dist4 := 1, dist5 := 2 } := by
  simp [getStats, statsDB, ratingsFor, avgStars, jsRound]
  norm_num

/-- C3 counterexample: the claim says a DuplicateKey during the insert is
recovered internally as an update.  At the concrete input — user 2 submits
4 stars for resource 10, while rating 99 by the same user for the same
resource was inserted concurrently after the existence check — the unique
index rejects the insert and the handler's catch block answers the generic
500 server error; no update is performed. -/
theorem C3_counterexample_duplicate_key_surfaces_as_500 :
    submitWithConcurrentInsert raceDB 2 10 4 none
        { id := 99, user := 2, resource := 10, stars := 3, review := "" } =
      (SubmitResult.serverError,
       { ratings := [{ id := 99, user := 2, resource := 10, stars := 3, review := "" }],
         resources := [{ id := 10, uploadedBy := 1, isActive := true,
                         stars := 0, totalRatings := 0 }],
         nextRatingId := 1 }) :=
  rfl

/-- C3 amended: when a concurrent insert for the same `(user, resource)`
pair lands between the existence check and the insert, the duplicate-key
rejection reaches the route's catch-all, which answers the generic 500
server error; the handler does not retry as an update. -/
theorem C3_amended_race_returns_server_error (db : DB)
    (userId resourceId stars : Nat) (review : Option String) (concurrent : Rating)
    (hval : validInput stars review = true)
    (rsrc : Resource) (hres : findResource db resourceId = some rsrc)
    (hact : rsrc.isActive = true) (hown : rsrc.uploadedBy ≠ userId)
    (hnone : findOneRating db userId resourceId = none)
    (hu : concurrent.user = userId) (hr : concurrent.resource = resourceId) :
    (submitWithConcurrentInsert db userId resourceId stars review concurrent).fst =
      SubmitResult.serverError := by
  unfold submitWithConcurrentInsert
  rw [hres, hnone]
  simp [hval, hact, hown, Ne.symm hown, saveNewRating, hu, hr]

/-- Witness for the amended C3 at the concrete race store. -/
theorem C3_amended_witness :
    (submitWithConcurrentInsert raceDB 2 10 4 none
        { id := 99, user := 2, resource := 10, stars := 3, review := "" }).fst =
      SubmitResult.serverError :=
  C3_amended_race_returns_server_error raceDB 2 10 4 none
    { id := 99, user := 2, resource := 10, stars := 3, review := "" }
    rfl { id := 10, uploadedBy := 1, isActive := true, stars := 0, totalRatings := 0 }
    rfl rfl (by decide) rfl rfl rfl

/-- C6: on every reachable mean — the average of a non-empty list of
ratings whose stars lie in [1,5] — the implemented rounding
(`Math.round(mean*10)/10`, i.e. `jsRound`, halves toward +∞) agrees with
round-half-away-from-zero, because every reachable `mean*10` is positive
(at least 10), where the two rules coincide. -/
theorem C6_rounding_agrees (l : List Rating) (hne : l ≠ [])
    (hs : ∀ r ∈ l, 1 ≤ r.stars ∧ r.stars ≤ 5) :
    jsRound (avgStars l * 10) = roundHalfAwayFromZero (avgStars l * 10) := by
  have hlen : (0 : ℚ) < l.length := by
    exact_mod_cast List.length_pos.mpr hne
  have h1 : (1 : ℚ) ≤ avgStars l := by
    rw [avgStars, one_le_div hlen]
    exact length_le_sum_of_stars_ge_one l (fun r hr => (hs r hr).1)
  have h0 : (0 : ℚ) ≤ avgStars l * 10 := by linarith
  unfold jsRound roundHalfAwayFromZero
  rw [if_pos h0]

/-- Witness for C6 at a concrete one-element rating list. -/
theorem C6_rounding_agrees_witness :
    jsRound (avgStars
        [{ id := 1, user := 2, resource := 10, stars := 5, review := "" }] * 10) =
      roundHalfAwayFromZero (avgStars
        [{ id := 1, user := 2, resource := 10, stars := 5, review := "" }] * 10) :=
  C6_rounding_agrees
    [{ id := 1, user := 2, resource := 10, stars := 5, review := "" }]
    (by decide) (by decide)

/-- C9: Recompute is idempotent — recomputing a resource's aggregate twice
with no intervening change to the rating store yields the same store as
recomputing once, because recomputation does not touch the ratings and the
second aggregate write overwrites the first with identical values. -/
theorem C9_recompute_idempotent (db : DB) (resourceId : Nat) :
    updateResourceStars (updateResourceStars db resourceId) resourceId =
      updateResourceStars db resourceId := by
  have hr : ratingsFor (updateResourceStars db resourceId) resourceId =
      ratingsFor db resourceId := by
    unfold ratingsFor
    rw [updateResourceStars_ratings]
  rw [updateResourceStars_def (updateResourceStars db resourceId), hr,
      updateResourceStars_def db]
  by_cases h : (ratingsFor db resourceId).length = 0
  · simp [h, writeAggregate_overwrite]
  · simp [h, writeAggregate_overwrite]

/-- C10: the denormalized aggregate and the on-demand statistics are the
same function of the rating set — for every store and resource, GetStats
answers some body, and what Recompute writes onto the resource is exactly
that body's `averageStars` and `totalRatings`. -/
theorem C10_recompute_matches_stats (db : DB) (resourceId : Nat) :
    ∃ body, getStats db resourceId = StatsResponse.ok body ∧
      updateResourceStars db resourceId =
        writeAggregate db resourceId body.averageStars body.totalRatings := by
  by_cases h : (ratingsFor db resourceId).length = 0
  · refine ⟨{ averageStars := 0, totalRatings := 0, dist1 := 0, dist2 := 0,
              dist3 := 0, dist4 := 0, dist5 := 0 }, ?_, ?_⟩
    · simp [getStats, h]
    · simp [updateResourceStars_def, h]
  · refine ⟨{ averageStars := (jsRound (avgStars (ratingsFor db resourceId) * 10) : ℚ) / 10,
              totalRatings := (ratingsFor db resourceId).length,
              dist1 := ((ratingsFor db resourceId).map (fun r => r.stars)).count 1,
              dist2 := ((ratingsFor db resourceId).map (fun r => r.stars)).count 2,
              dist3 := ((ratingsFor db resourceId).map (fun r => r.stars)).count 3,
              dist4 := ((ratingsFor db resourceId).map (fun r => r.stars)).count 4,
              dist5 := ((ratingsFor db resourceId).map (fun r => r.stars)).count 5 }, ?_, ?_⟩
    · simp [getStats, h]
    · simp [updateResourceStars_def, h]

/-- C8: submitting a rating when the same user already has one for the
same resource overwrites the existing record — same `_id`, same user and
resource, new stars, new review when provided — so the number of live
ratings of the resource does not increase, and the at-most-one-rating-per
`(user, resource)` pair property is preserved. -/
theorem C8_resubmit_updates_in_place (db : DB) (userId resourceId stars : Nat)
    (review : Option String) (hids : WFIds db) (huniq : UniquePairs db)
    (r0 : Rating) (hprior : findOneRating db userId resourceId = some r0)
    (hval : validInput stars review = true)
    (rsrc : Resource) (hres : findResource db resourceId = some rsrc)
    (hact : rsrc.isActive = true) (hown : rsrc.uploadedBy ≠ userId) :
    ∃ msg r', submit db userId resourceId stars review =
        (SubmitResult.success msg r',
         (submit db userId resourceId stars review).snd) ∧
      r'.id = r0.id ∧ r'.user = userId ∧ r'.resource = resourceId ∧
      r'.stars = stars ∧ r'.review = review.getD r0.review ∧
      r' ∈ (submit db userId resourceId stars review).snd.ratings ∧
      UniquePairs (submit db userId resourceId stars review).snd ∧
      (ratingsFor (submit db userId resourceId stars review).snd resourceId).length =
        (ratingsFor db resourceId).length := by
  have hr0mem : r0 ∈ db.ratings := List.mem_of_find?_eq_some hprior
  have hr0p := List.find?_some hprior
  rw [Bool.and_eq_true, beq_iff_eq, beq_iff_eq] at hr0p
  obtain ⟨hr0u, hr0r⟩ := hr0p
  have hstep : submit db userId resourceId stars review =
      (SubmitResult.success "Rating added successfully"
        { r0 with stars := stars, review := review.getD r0.review },
       updateResourceStars
         { db with ratings := db.ratings.map (fun r =>
             if r.id == r0.id then
               { r0 with stars := stars, review := review.getD r0.review }
             else r) } resourceId) := by
    unfold submit
    rw [hres, hprior]
    simp [hval, hact, hown]
    cases review <;> exact ⟨rfl, rfl⟩
  have hratings : (submit db userId resourceId stars review).snd.ratings =
      db.ratings.map (fun r =>
        if r.id == r0.id then
          { r0 with stars := stars, review := review.getD r0.review }
        else r) := by
    rw [hstep, updateResourceStars_ratings]
  have hfields := overwrite_preserves_key_fields db.ratings r0
    { r0 with stars := stars, review := review.getD r0.review }
    rfl rfl hids hr0mem
  refine ⟨"Rating added successfully",
    { r0 with stars := stars, review := review.getD r0.review },
    ?_, rfl, hr0u, hr0r, rfl, rfl, ?_, ?_, ?_⟩
  · rw [hstep]
  · rw [hratings]
    simpa using List.mem_map_of_mem (fun r =>
      if r.id == r0.id then
        { r0 with stars := stars, review := review.getD r0.review }
      else r) hr0mem
  · unfold UniquePairs
    rw [hratings]
    exact pairwise_pairs_map _ _ hfields huniq
  · unfold ratingsFor
    rw [hratings]
    exact length_filter_map_of_pred_eq db.ratings _ _
      (fun x hx => by rw [(hfields x hx).2])

/-- Witness for C8: user 2 resubmits 5 stars for resource 10 in
`sampleDB`, where their previous rating had 3 stars. -/
theorem C8_resubmit_witness :
    ∃ msg r', submit sampleDB 2 10 5 none =
        (SubmitResult.success msg r', (submit sampleDB 2 10 5 none).snd) ∧
      r'.id = 1 ∧ r'.user = 2 ∧ r'.resource = 10 ∧ r'.stars = 5 ∧ r'.review = "old" ∧
      r' ∈ (submit sampleDB 2 10 5 none).snd.ratings ∧
      UniquePairs (submit sampleDB 2 10 5 none).snd ∧
      (ratingsFor (submit sampleDB 2 10 5 none).snd 10).length =
        (ratingsFor sampleDB 10).length :=
  C8_resubmit_updates_in_place sampleDB 2 10 5 none
    (by unfold WFIds; decide) (by unfold UniquePairs; decide)
    { id := 1, user := 2, resource := 10, stars := 3, review := "old" } rfl rfl
    { id := 10, uploadedBy := 1, isActive := true, stars := 3, totalRatings := 1 }
    rfl rfl (by decide)

end ExamPrepShare
